import Mathlib

/-!
Shallow embedding of the OpenWork agent core (openwork/sandbox/manager.py,
openwork/agent/context.py, openwork/agent/loop.py, openwork/agent/subagent.py)
and proofs about it.

Modelling conventions:
* A resolved absolute filesystem path is a `List String` of its components,
  so `[]` is the root `/` and `["a","b"]` is `/a/b`.  Python's
  `Path.resolve()` is modelled as an arbitrary function
  `resolve : String → List String` wherever the code resolves a raw string.
* Python dicts of string parameters are association lists
  `List (String × String)` with unique keys; `dict.get` is `List.lookup`.
* Python truthiness of an optional string (`None` and `""` are falsy) is
  the `truthyStr` predicate below.
* `await`, timestamps and the metadata dicts carried by messages and
  observations are not modelled: no property here mentions them, and the
  asyncio scheduling is outside a pure embedding.  Every stateful method is
  modelled as an explicit state-passing function.
-/

namespace OpenWork

/-- `isParentOf a p` holds when path `a` is a member of `p.parents` in the
Python sense, i.e. `a` is a strict ancestor directory of `p`.  On resolved
absolute component lists this is exactly "strict prefix". -/
def isParentOf : List String → List String → Bool
  | [], [] => false
  | [], _ :: _ => true
  | _ :: _, [] => false
  | a :: as, b :: bs => a == b && isParentOf as bs

namespace SandboxManager

/-- Embedding of `SandboxManager.is_path_allowed` (sandbox/manager.py:57-67):
empty allowed list gives `False`; otherwise any allowed root that equals the
resolved path, is one of its parents, or *has the path among its own parents*
makes it allowed.  Both the path and the configured roots are resolved. -/
def is_path_allowed (allowed_paths : List (List String)) (path : List String) : Bool :=
  if allowed_paths.isEmpty then false
  else allowed_paths.any fun allowed =>
    path == allowed || isParentOf allowed path || isParentOf path allowed

/-- The predicate in the words of claim C1 / spec 4.2: the resolved path
equals some configured root or is a descendant of one. -/
def claimPathAllowed (allowed_paths : List (List String)) (path : List String) : Bool :=
  allowed_paths.any fun allowed => path == allowed || isParentOf allowed path

/-- Python `PurePath.suffix` of the final component `name` (CPython:
the part from the last dot `i` onward when `0 < i < len(name) - 1`,
otherwise the empty string). -/
def pathSuffix (name : String) : String :=
  let cs := name.data
  let n := cs.length
  let j := cs.reverse.indexOf '.'
  if j < n && 0 < j && j < n - 1 then
    String.mk ((cs.reverse.take (j + 1)).reverse)
  else ""

/-- Embedding of `SandboxManager.is_extension_allowed`
(sandbox/manager.py:69-80); the extension sets of `SandboxConfig` are passed
explicitly, the final path component as `name`. -/
def is_extension_allowed (allowed_extensions blocked_extensions : List String)
    (name : String) : Bool :=
  let ext := (pathSuffix name).toLower
  if blocked_extensions.contains ext then false
  else if !allowed_extensions.isEmpty then
    allowed_extensions.contains ext || ext == ""
  else true

/-- The extension predicate in the words of claim C9 / spec 4.2: false if the
suffix is deny-listed, else true exactly when the allow-list is empty, the
suffix is allow-listed, or the suffix is empty. -/
def claimExtensionAllowed (allowed_extensions blocked_extensions : List String)
    (name : String) : Bool :=
  let ext := (pathSuffix name).toLower
  !blocked_extensions.contains ext &&
    (allowed_extensions.isEmpty || allowed_extensions.contains ext || ext == "")

end SandboxManager

inductive MessageRole
  | system
  | user
  | assistant
  | tool
deriving DecidableEq, Repr

/-- A conversation message (agent/context.py `Message`); the timestamp and
metadata dict are not modelled (no claim mentions them). -/
structure Message where
  role : MessageRole
  content : String
deriving DecidableEq, Repr

/-- A tool observation (agent/context.py `Observation`), timestamp omitted.
Outputs are modelled as optional strings. -/
structure Observation where
  tool_name : String
  input_params : List (String × String)
  output : Option String
  success : Bool
  error : Option String
deriving DecidableEq, Repr

/-- State of agent/context.py `Context`; the `metadata` dict is omitted. -/
structure Context where
  task : String
  allowed_paths : List (List String)
  messages : List Message
  observations : List Observation
  max_history_length : Nat := 50
deriving DecidableEq, Repr

def isSystem (m : Message) : Bool := m.role == MessageRole.system

/-- Python slicing `l[k:]` for an arbitrary integer index `k` (negative
indices count from the end, out-of-range indices clamp). -/
def pySliceFrom {α : Type} (l : List α) (k : Int) : List α :=
  if 0 ≤ k then l.drop k.toNat
  else l.drop (l.length - (-k).toNat)

namespace Context

/-- Embedding of `Context._trim_history` (agent/context.py:95-100): when the
store exceeds the ceiling, rebuild it as all system messages
(`system_messages` in the source, inlined here) followed by the Python slice
`messages[-max_history_length + len(system_messages):]`. -/
def trim_history (max_history_length : Nat) (messages : List Message) : List Message :=
  if messages.length > max_history_length then
    messages.filter isSystem ++
      pySliceFrom messages
        (((messages.filter isSystem).length : Int) - (max_history_length : Int))
  else messages

/-- Embedding of `Context.add_message` (agent/context.py:61-68): append,
then trim. -/
def add_message (ctx : Context) (role : MessageRole) (content : String) : Context :=
  { ctx with
    messages := trim_history ctx.max_history_length (ctx.messages ++ [⟨role, content⟩]) }

/-- The synthesized tool message text of `Context.add_observation`. -/
def observationMessage (o : Observation) : String :=
  "Tool: " ++ o.tool_name ++ "\n" ++
    (if o.success then "Output: " ++ (o.output.getD "None")
     else "Error: " ++ (o.error.getD "None"))

/-- Embedding of `Context.add_observation` (agent/context.py:70-78). -/
def add_observation (ctx : Context) (o : Observation) : Context :=
  add_message { ctx with observations := ctx.observations ++ [o] }
    MessageRole.tool (observationMessage o)

/-- Embedding of `Context.is_path_allowed` (agent/context.py:80-86): unlike
the `SandboxManager` version there is no ancestor clause. -/
def is_path_allowed (ctx : Context) (path : List String) : Bool :=
  ctx.allowed_paths.any fun allowed => path == allowed || isParentOf allowed path

/-- Embedding of `Context.get_messages_for_llm` (agent/context.py:88-93). -/
def get_messages_for_llm (ctx : Context) : List (MessageRole × String) :=
  ctx.messages.map fun m => (m.role, m.content)

/-- Embedding of `Context.__post_init__` composed with the dataclass
constructor used by `AgentLoop.run`: empty history, then the task appended
as a user message when it is truthy. -/
def init (task : String) (allowed_paths : List (List String)) : Context :=
  let ctx : Context := ⟨task, allowed_paths, [], [], 50⟩
  if task ≠ "" then add_message ctx MessageRole.user task else ctx

/-- Applying a whole sequence of `add_message` calls. -/
def addAll (ctx : Context) (seq : List (MessageRole × String)) : Context :=
  seq.foldl (fun c rc => add_message c rc.1 rc.2) ctx

end Context

theorem trim_history_mem_system {m : Message} {l : List Message}
    (C : Nat) (hm : m ∈ l) (hs : isSystem m = true) :
    m ∈ Context.trim_history C l := by
  unfold Context.trim_history
  split
  · exact List.mem_append_left _ (List.mem_filter.2 ⟨hm, hs⟩)
  · exact hm

theorem add_message_mem_system {m : Message} {ctx : Context}
    (role : MessageRole) (content : String)
    (hm : m ∈ ctx.messages) (hs : isSystem m = true) :
    m ∈ (Context.add_message ctx role content).messages :=
  trim_history_mem_system _ (List.mem_append_left _ hm) hs

theorem addAll_mem_system {m : Message} {ctx : Context}
    (seq : List (MessageRole × String))
    (hm : m ∈ ctx.messages) (hs : isSystem m = true) :
    m ∈ (Context.addAll ctx seq).messages := by
  induction seq generalizing ctx with
  | nil => exact hm
  | cons rc rest ih => exact ih (add_message_mem_system rc.1 rc.2 hm hs)

theorem trim_history_length_le {C : Nat} {l : List Message}
    (hsys : (l.filter isSystem).length < C) :
    (Context.trim_history C l).length ≤ C := by
  unfold Context.trim_history
  split
  · rename_i hlen
    rw [List.length_append]
    unfold pySliceFrom
    rw [if_neg (by omega)]
    rw [List.length_drop]
    omega
  · omega

theorem add_message_new_mem_system {ctx : Context} (role : MessageRole)
    (content : String) (hs : isSystem (⟨role, content⟩ : Message) = true) :
    (⟨role, content⟩ : Message) ∈ (Context.add_message ctx role content).messages :=
  trim_history_mem_system _ (List.mem_append_right _ (List.mem_singleton.2 rfl)) hs

theorem trim_history_of_length_le {C : Nat} {l : List Message}
    (h : ¬ l.length > C) :
    Context.trim_history C l = l := by
  unfold Context.trim_history
  rw [if_neg h]

theorem addAll_seq_mem_system {ctx : Context} (seq : List (MessageRole × String)) :
    ∀ rc ∈ seq, rc.1 = MessageRole.system →
      (⟨rc.1, rc.2⟩ : Message) ∈ (Context.addAll ctx seq).messages := by
  induction seq generalizing ctx with
  | nil => intro rc h; exact absurd h (List.not_mem_nil rc)
  | cons hd rest ih =>
    intro rc hrc hsysrc
    have hstep : Context.addAll ctx (hd :: rest) =
        Context.addAll (Context.add_message ctx hd.1 hd.2) rest := rfl
    rw [hstep]
    rcases List.mem_cons.1 hrc with heq | hmem
    · subst heq
      exact addAll_mem_system rest
        (add_message_new_mem_system rc.1 rc.2 (by simp [isSystem, hsysrc]))
        (by simp [isSystem, hsysrc])
    · exact ih rc hmem hsysrc

/-- C4 as stated is false: with ceiling 2 and three consecutive system-role
appends, `_trim_history` rebuilds the store as all system messages plus the
slice `messages[len(sys)-ceiling:]`, so the store ends with 5 messages,
exceeding the ceiling. -/
theorem c4_counterexample :
    ¬ ((Context.add_message
          (Context.add_message
            (Context.add_message (⟨"", [], [], [], 2⟩ : Context)
              MessageRole.system "a")
            MessageRole.system "b")
          MessageRole.system "c").messages.length ≤ 2) := by
  decide

/-- C4 amended: after every `add_message` call the stored count stays at most
the ceiling *provided the store (including the new message) holds strictly
fewer system-role messages than the ceiling*; and, unconditionally, every
system-role message already stored, and every system-role message appended by
any sequence of calls, is still present afterwards. -/
theorem c4_history_bound_amended (ctx : Context) (role : MessageRole)
    (content : String) (seq : List (MessageRole × String)) :
    ((((ctx.messages ++ [(⟨role, content⟩ : Message)]).filter isSystem).length <
        ctx.max_history_length) →
      (Context.add_message ctx role content).messages.length ≤
        ctx.max_history_length) ∧
    (∀ m ∈ ctx.messages, isSystem m = true →
      m ∈ (Context.addAll ctx seq).messages) ∧
    (∀ rc ∈ seq, rc.1 = MessageRole.system →
      (⟨rc.1, rc.2⟩ : Message) ∈ (Context.addAll ctx seq).messages) := by
  refine ⟨fun hsys => trim_history_length_le hsys, ?_, addAll_seq_mem_system seq⟩
  intro m hm hs
  exact addAll_mem_system seq hm hs

/-- A small concrete store used by the C4 witness. -/
def c4Ctx : Context := ⟨"t", [], [⟨MessageRole.user, "t"⟩], [], 3⟩

/-- A one-call sequence used by the C4 witness. -/
def c4Seq : List (MessageRole × String) := [(MessageRole.system, "s")]

/-- Witness for the amended C4 at a concrete store and call sequence. -/
theorem c4_history_bound_amended_witness :
    ((((c4Ctx.messages ++ [(⟨MessageRole.system, "s"⟩ : Message)]).filter
          isSystem).length <
        c4Ctx.max_history_length) →
      (Context.add_message c4Ctx MessageRole.system "s").messages.length ≤
        c4Ctx.max_history_length) ∧
    (∀ m ∈ c4Ctx.messages, isSystem m = true →
      m ∈ (Context.addAll c4Ctx c4Seq).messages) ∧
    (∀ rc ∈ c4Seq, rc.1 = MessageRole.system →
      (⟨rc.1, rc.2⟩ : Message) ∈ (Context.addAll c4Ctx c4Seq).messages) :=
  c4_history_bound_amended c4Ctx MessageRole.system "s" c4Seq

/-- C5 as stated is false: trimming `[user a, user b, user c, system s]` at
ceiling 3 yields `[system s, user c, system s]` — the surviving system
message is duplicated (and moved ahead of an older surviving message),
though the input had no duplicates. -/
theorem c5_counterexample :
    ([⟨MessageRole.user, "a"⟩, ⟨MessageRole.user, "b"⟩,
      ⟨MessageRole.user, "c"⟩, ⟨MessageRole.system, "s"⟩] : List Message).Nodup ∧
    ¬ (Context.trim_history 3
        [⟨MessageRole.user, "a"⟩, ⟨MessageRole.user, "b"⟩,
         ⟨MessageRole.user, "c"⟩, ⟨MessageRole.system, "s"⟩]).Nodup := by
  decide

/-- C5 amended: when the store exceeds the ceiling `C` and holds strictly
fewer than `C` system messages, eviction produces all system messages (in
order, moved to the front) followed by the most recent `C − systemCount`
messages (so a system message inside that recent window is kept twice); the
result then has exactly `C` messages and a second eviction is the
identity. -/
theorem c5_trim_history_amended (C : Nat) (l : List Message)
    (hlen : l.length > C) (hsys : (l.filter isSystem).length < C) :
    Context.trim_history C l =
      l.filter isSystem ++
        l.drop (l.length + (l.filter isSystem).length - C) ∧
    (Context.trim_history C l).length = C ∧
    Context.trim_history C (Context.trim_history C l) =
      Context.trim_history C l := by
  have hmain : Context.trim_history C l =
      l.filter isSystem ++
        l.drop (l.length + (l.filter isSystem).length - C) := by
    unfold Context.trim_history
    split
    · unfold pySliceFrom
      rw [if_neg (by omega)]
      have harg :
          l.length - (-(((l.filter isSystem).length : Int) - (C : Int))).toNat =
            l.length + (l.filter isSystem).length - C := by omega
      rw [harg]
    · rename_i h
      exact absurd hlen h
  have hlength : (Context.trim_history C l).length = C := by
    rw [hmain, List.length_append, List.length_drop]
    omega
  exact ⟨hmain, hlength, trim_history_of_length_le (by omega)⟩

/-- A concrete overlong store used by the C5 witness. -/
def c5List : List Message :=
  [⟨MessageRole.user, "a"⟩, ⟨MessageRole.user, "b"⟩, ⟨MessageRole.user, "c"⟩]

/-- Witness for the amended C5 at a concrete overlong store. -/
theorem c5_trim_history_amended_witness :
    Context.trim_history 2 c5List =
      c5List.filter isSystem ++
        c5List.drop (c5List.length + (c5List.filter isSystem).length - 2) ∧
    (Context.trim_history 2 c5List).length = 2 ∧
    Context.trim_history 2 (Context.trim_history 2 c5List) =
      Context.trim_history 2 c5List :=
  c5_trim_history_amended 2 c5List (by decide) (by decide)

/-- Python truthiness of an optional string: `None` and `""` are falsy. -/
def truthyStr : Option String → Bool
  | some s => !(s == "")
  | none => false

/-- Python `a or b` on optional strings: `b` when `a` is falsy. -/
def pyOr (a b : Option String) : Option String :=
  if truthyStr a then a else b

/-- Python `a or default` producing a string (loop.py line 168:
`decision.final_answer or "Task completed."`). -/
def pyOrStr (a : Option String) (default : String) : String :=
  match a with
  | some s => if s == "" then default else s
  | none => default

/-- Result of a tool invocation (tools/base.py `ToolResult`); the output is
modelled as an optional string and the `metadata` dict is omitted. -/
structure ToolResult where
  success : Bool
  output : Option String
  error : Option String
deriving DecidableEq, Repr

/-- A registered tool (tools/base.py `BaseTool`): its description, its
`requires_path_check` flag, and its `execute` body.  The body is an
arbitrary function of the parameters; a raised exception is modelled by
`Except.error` with the exception text. -/
structure Tool where
  description : String
  requires_path_check : Bool
  exec : List (String × String) → Except String ToolResult

/-- Decision parsed from the model reply (loop.py `AgentDecision`). -/
structure AgentDecision where
  thought : String
  tool_name : Option String := none
  tool_params : List (String × String) := []
  is_complete : Bool := false
  final_answer : Option String := none
  needs_verification : Bool := false
deriving DecidableEq, Repr

/-- Terminal value of a loop run (loop.py `AgentResult`). -/
structure AgentResult where
  success : Bool
  output : String
  observations : List Observation
  error : Option String := none
  iterations : Nat := 0
deriving DecidableEq, Repr

/-- The fields a decision JSON object may carry, each `none` when the key is
absent; `_get_decision` reads them with `dict.get` defaults. -/
structure DecisionJson where
  thought : Option String := none
  tool : Option String := none
  params : Option (List (String × String)) := none
  is_complete : Option Bool := none
  answer : Option String := none

/-- Outcome of `json.loads` on the model reply: `decodeError` models a
`json.JSONDecodeError`; `nonObject` models a successful decode to a JSON
value that is not an object (list, string, number, null, bool), carrying the
text of the `AttributeError` the subsequent `data.get` call then raises;
`object` carries the decoded object's fields. -/
inductive JsonOutcome where
  | decodeError
  | nonObject (errText : String)
  | object (data : DecisionJson)

namespace AgentLoop

/-- Embedding of `AgentLoop._get_decision` (loop.py:219-240) given the
outcome of `json.loads` on the raw model reply.  A `JSONDecodeError` falls
back to treating the whole reply as a complete final answer; a decode to a
non-object raises (`Except.error`), which escapes `_get_decision` since only
`JSONDecodeError` is caught there. -/
def get_decision (jsonParse : String → JsonOutcome) (response : String) :
    Except String AgentDecision :=
  match jsonParse response with
  | JsonOutcome.object data =>
      Except.ok
        { thought := data.thought.getD ""
          tool_name := data.tool
          tool_params := data.params.getD []
          is_complete := data.is_complete.getD false
          final_answer := data.answer }
  | JsonOutcome.decodeError =>
      Except.ok
        { thought := response
          is_complete := true
          final_answer := some response }
  | JsonOutcome.nonObject e => Except.error e

/-- Embedding of `AgentLoop._execute_tool` (loop.py:242-278).  The registry
`tools` is the name-keyed mapping built by the constructor; `resolve` models
`Path(...).resolve()` on the extracted parameter.  Unknown tool names and
sandbox rejections return failure results without touching the tool body; a
fault raised by the body (`Except.error`) is converted to a failure
result. -/
def execute_tool (resolve : String → List String) (tools : List (String × Tool))
    (tool_name : String) (params : List (String × String)) (ctx : Context) :
    ToolResult :=
  match tools.lookup tool_name with
  | none => ⟨false, none, some ("Unknown tool: " ++ tool_name)⟩
  | some tool =>
    match
      (if tool.requires_path_check then
        match pyOr (params.lookup "path") (params.lookup "file_path") with
        | some p =>
          if p == "" then none
          else if ctx.is_path_allowed (resolve p) then none
          else some (⟨false, none, some ("Path not allowed: " ++ p)⟩ : ToolResult)
        | none => none
      else none) with
    | some failure => failure
    | none =>
      match tool.exec params with
      | Except.ok r => r
      | Except.error e => ⟨false, none, some e⟩

/-- The observation the loop records for a tool result
(loop.py:186-192): output only on success. -/
def mkObservation (tool_name : String) (params : List (String × String))
    (result : ToolResult) : Observation :=
  ⟨tool_name, params, if result.success then result.output else none,
    result.success, result.error⟩

/-- The terminal result when the iteration budget is exhausted
(loop.py:199-206). -/
def maxIterResult (max_iterations : Nat) (ctx : Context) (iterations : Nat) :
    AgentResult :=
  ⟨false, "", ctx.observations,
    some ("Max iterations (" ++ toString max_iterations ++ ") reached"),
    iterations⟩

/-- Embedding of the `while` loop of `AgentLoop.run` (loop.py:150-217).
`llm` models `self.llm.generate` on the rendered history; `jsonParse` models
`json.loads` on its reply.  An `Except.error` from `get_decision` is the
un-caught fault that lands in `run`'s `except Exception` handler, which
returns a failed result with the iterations so far. -/
def runLoop (llm : List (MessageRole × String) → String)
    (jsonParse : String → JsonOutcome) (resolve : String → List String)
    (tools : List (String × Tool)) (max_iterations : Nat)
    (ctx : Context) (iterations : Nat) : AgentResult :=
  if _h : iterations < max_iterations then
    match get_decision jsonParse (llm ctx.get_messages_for_llm) with
    | Except.error e => ⟨false, "", ctx.observations, some e, iterations + 1⟩
    | Except.ok decision =>
      if decision.is_complete then
        ⟨true, pyOrStr decision.final_answer "Task completed.",
          ctx.observations, none, iterations + 1⟩
      else if truthyStr decision.tool_name then
        runLoop llm jsonParse resolve tools max_iterations
          (ctx.add_observation
            (mkObservation (decision.tool_name.getD "") decision.tool_params
              (execute_tool resolve tools (decision.tool_name.getD "")
                decision.tool_params ctx)))
          (iterations + 1)
      else
        runLoop llm jsonParse resolve tools max_iterations ctx (iterations + 1)
  else maxIterResult max_iterations ctx iterations
termination_by max_iterations - iterations
decreasing_by
  all_goals omega

/-- The formatted tool list of `AgentLoop._get_tools_description`. -/
def toolsDescription (tools : List (String × Tool)) : String :=
  String.intercalate "\n"
    (tools.map fun nt => "- " ++ nt.1 ++ ": " ++ nt.2.description)

/-- The system prompt of `AgentLoop.run`; the literal instruction text is
abbreviated to its first line — only its system role and the appended tool
descriptions matter to the properties proved here. -/
def systemPrompt (tools : List (String × Tool)) : String :=
  "You are OpenWork, an AI assistant that helps users automate tasks with their local files.\n"
    ++ toolsDescription tools

/-- Embedding of `AgentLoop.run` (loop.py:129-217): build the context from
the task and the resolved allowed paths, add the system prompt, and loop
from iteration 0. -/
def run (llm : List (MessageRole × String) → String)
    (jsonParse : String → JsonOutcome) (resolve : String → List String)
    (tools : List (String × Tool)) (max_iterations : Nat)
    (task : String) (allowed_paths : List String) : AgentResult :=
  runLoop llm jsonParse resolve tools max_iterations
    ((Context.init task (allowed_paths.map resolve)).add_message
      MessageRole.system (systemPrompt tools))
    0

end AgentLoop

theorem add_message_observations (ctx : Context) (role : MessageRole)
    (content : String) :
    (Context.add_message ctx role content).observations = ctx.observations :=
  rfl

theorem init_observations (task : String) (aps : List (List String)) :
    (Context.init task aps).observations = [] := by
  unfold Context.init
  split <;> rfl

/-- C2: when a tool requires the path check, the dispatcher extracted a
truthy path parameter, and the sandbox rejects it, `_execute_tool` returns
the failure result without ever invoking the tool body (the conclusion does
not depend on `tool.exec`), and the loop appends a failed Observation and
continues with the next iteration instead of aborting. -/
theorem c2_sandbox_rejection_recovered
    (llm : List (MessageRole × String) → String)
    (jsonParse : String → JsonOutcome) (resolve : String → List String)
    (tools : List (String × Tool)) (max_iterations : Nat)
    (tool_name : String) (params : List (String × String)) (ctx : Context)
    (tool : Tool) (p : String) (decision : AgentDecision) (iterations : Nat)
    (hlookup : tools.lookup tool_name = some tool)
    (hrpc : tool.requires_path_check = true)
    (hp : pyOr (params.lookup "path") (params.lookup "file_path") = some p)
    (hne : (p == "") = false)
    (hdenied : ctx.is_path_allowed (resolve p) = false)
    (hiter : iterations < max_iterations)
    (hdec : AgentLoop.get_decision jsonParse (llm ctx.get_messages_for_llm) =
      Except.ok decision)
    (hcomp : decision.is_complete = false)
    (htool : decision.tool_name = some tool_name)
    (htoolname : (tool_name == "") = false)
    (hparams : decision.tool_params = params) :
    AgentLoop.execute_tool resolve tools tool_name params ctx =
      ⟨false, none, some ("Path not allowed: " ++ p)⟩ ∧
    AgentLoop.runLoop llm jsonParse resolve tools max_iterations ctx iterations =
      AgentLoop.runLoop llm jsonParse resolve tools max_iterations
        (ctx.add_observation
          ⟨tool_name, params, none, false, some ("Path not allowed: " ++ p)⟩)
        (iterations + 1) ∧
    (ctx.add_observation
        ⟨tool_name, params, none, false,
          some ("Path not allowed: " ++ p)⟩).observations =
      ctx.observations ++
        [⟨tool_name, params, none, false, some ("Path not allowed: " ++ p)⟩] := by
  have hexec : AgentLoop.execute_tool resolve tools tool_name params ctx =
      ⟨false, none, some ("Path not allowed: " ++ p)⟩ := by
    unfold AgentLoop.execute_tool
    rw [hlookup]
    simp [hrpc, hp, hne, hdenied]
  refine ⟨hexec, ?_, rfl⟩
  conv_lhs => unfold AgentLoop.runLoop
  rw [dif_pos hiter, hdec]
  simp only [hcomp, htool, hparams, truthyStr, Bool.not_eq_true']
  rw [if_neg (by simp), if_pos (by simp [htoolname])]
  simp only [Option.getD_some, hexec, AgentLoop.mkObservation]
  simp

/-- The tool, registry, parameters, resolver and context used by the C2
witness: a path-checking tool asked to touch `/etc/passwd` while only
`/home/user` is allowed. -/
def c2Tool : Tool :=
  ⟨"writes a file", true, fun _ => Except.ok ⟨true, some "wrote", none⟩⟩

def c2Tools : List (String × Tool) := [("file_write", c2Tool)]

def c2Params : List (String × String) := [("path", "/etc/passwd")]

/-- Splits a character list on `/`. -/
def splitSlash : List Char → List Char → List (List Char)
  | [], acc => [acc.reverse]
  | c :: cs, acc =>
    if c = '/' then acc.reverse :: splitSlash cs []
    else splitSlash cs (c :: acc)

/-- A resolver for already-absolute, already-normalized path strings. -/
def simpleResolve (s : String) : List String :=
  ((splitSlash s.data []).filter fun c => !c.isEmpty).map String.mk

def c2Ctx : Context := Context.init "task" [["home", "user"]]

def c2Json : String → JsonOutcome := fun _ =>
  JsonOutcome.object
    ⟨none, some "file_write", some [("path", "/etc/passwd")], some false, none⟩

def c2Decision : AgentDecision :=
  ⟨"", some "file_write", [("path", "/etc/passwd")], false, none, false⟩

/-- Witness for C2 at the concrete rejected tool call. -/
theorem c2_sandbox_rejection_recovered_witness :
    AgentLoop.execute_tool simpleResolve c2Tools "file_write" c2Params c2Ctx =
      ⟨false, none, some ("Path not allowed: " ++ "/etc/passwd")⟩ ∧
    AgentLoop.runLoop (fun _ => "r") c2Json simpleResolve c2Tools 5 c2Ctx 0 =
      AgentLoop.runLoop (fun _ => "r") c2Json simpleResolve c2Tools 5
        (c2Ctx.add_observation
          ⟨"file_write", c2Params, none, false,
            some ("Path not allowed: " ++ "/etc/passwd")⟩)
        (0 + 1) ∧
    (c2Ctx.add_observation
        ⟨"file_write", c2Params, none, false,
          some ("Path not allowed: " ++ "/etc/passwd")⟩).observations =
      c2Ctx.observations ++
        [⟨"file_write", c2Params, none, false,
          some ("Path not allowed: " ++ "/etc/passwd")⟩] :=
  c2_sandbox_rejection_recovered (fun _ => "r") c2Json simpleResolve c2Tools 5
    "file_write" c2Params c2Ctx c2Tool "/etc/passwd" c2Decision 0
    rfl rfl rfl rfl (by decide) (by decide) rfl rfl rfl rfl rfl

/-- C3: when a path-checking tool's parameter mapping holds no truthy
`path` or `file_path` entry, `_execute_tool` performs no sandbox check at
all and invokes the tool body anyway — the result is exactly the wrapped
body result, independent of the context's allowed paths. -/
theorem c3_missing_path_param_skips_check
    (resolve : String → List String) (tools : List (String × Tool))
    (tool_name : String) (params : List (String × String)) (ctx : Context)
    (tool : Tool)
    (hlookup : tools.lookup tool_name = some tool)
    (hnopath :
      truthyStr (pyOr (params.lookup "path") (params.lookup "file_path")) = false) :
    AgentLoop.execute_tool resolve tools tool_name params ctx =
      match tool.exec params with
      | Except.ok r => r
      | Except.error e => ⟨false, none, some e⟩ := by
  unfold AgentLoop.execute_tool
  rw [hlookup]
  cases hrpc : tool.requires_path_check
  · simp [hrpc]
  · cases hp : pyOr (params.lookup "path") (params.lookup "file_path") with
    | none => simp [hrpc, hp]
    | some q =>
      rw [hp] at hnopath
      have hq : q = "" := by
        simpa [truthyStr] using hnopath
      subst hq
      simp [hrpc, hp]

/-- The path-checking tool invoked with an empty `file_path` by the C3
witness: the body runs even though nothing was checked. -/
def c3Tool : Tool :=
  ⟨"reads a file", true, fun _ => Except.ok ⟨true, some "ran", none⟩⟩

def c3Tools : List (String × Tool) := [("file_read", c3Tool)]

def c3Params : List (String × String) := [("file_path", "")]

/-- Witness for C3: the dispatcher invokes the body although the tool
requires a path check and the sandbox allows nothing. -/
theorem c3_missing_path_param_skips_check_witness :
    AgentLoop.execute_tool simpleResolve c3Tools "file_read" c3Params
        (Context.init "task" []) =
      match c3Tool.exec c3Params with
      | Except.ok r => r
      | Except.error e => ⟨false, none, some e⟩ :=
  c3_missing_path_param_skips_check simpleResolve c3Tools "file_read" c3Params
    (Context.init "task" []) c3Tool rfl rfl

theorem runLoop_stalled (llm : List (MessageRole × String) → String)
    (jsonParse : String → JsonOutcome) (resolve : String → List String)
    (tools : List (String × Tool)) (max_iterations : Nat)
    (hstall : ∀ msgs, ∃ d,
      AgentLoop.get_decision jsonParse (llm msgs) = Except.ok d ∧
        d.is_complete = false ∧ truthyStr d.tool_name = false) :
    ∀ fuel ctx iterations, max_iterations - iterations = fuel →
      iterations ≤ max_iterations →
      AgentLoop.runLoop llm jsonParse resolve tools max_iterations ctx iterations =
        ⟨false, "", ctx.observations,
          some ("Max iterations (" ++ toString max_iterations ++ ") reached"),
          max_iterations⟩ := by
  intro fuel
  induction fuel with
  | zero =>
    intro ctx iterations hfuel hle
    have heq : iterations = max_iterations := by omega
    unfold AgentLoop.runLoop
    rw [dif_neg (by omega)]
    unfold AgentLoop.maxIterResult
    rw [heq]
  | succ k ih =>
    intro ctx iterations hfuel _hle
    have hlt : iterations < max_iterations := by omega
    conv_lhs => unfold AgentLoop.runLoop
    rw [dif_pos hlt]
    obtain ⟨d, hd, hcomp, htool⟩ := hstall ctx.get_messages_for_llm
    rw [hd]
    simp only [hcomp, htool, Bool.false_eq_true, if_false]
    exact ih ctx (iterations + 1) (by omega) (by omega)

/-- C7: a run whose model backend always yields an incomplete decision
naming no tool terminates after exactly `max_iterations` iterations with
`success = false`, `iterations = max_iterations` and the dedicated
"Max iterations (N) reached" error message. -/
theorem c7_budget_exhaustion (llm : List (MessageRole × String) → String)
    (jsonParse : String → JsonOutcome) (resolve : String → List String)
    (tools : List (String × Tool)) (max_iterations : Nat)
    (task : String) (allowed_paths : List String)
    (hstall : ∀ msgs, ∃ d,
      AgentLoop.get_decision jsonParse (llm msgs) = Except.ok d ∧
        d.is_complete = false ∧ truthyStr d.tool_name = false) :
    AgentLoop.run llm jsonParse resolve tools max_iterations task allowed_paths =
      ⟨false, "", [],
        some ("Max iterations (" ++ toString max_iterations ++ ") reached"),
        max_iterations⟩ := by
  unfold AgentLoop.run
  rw [runLoop_stalled llm jsonParse resolve tools max_iterations hstall
    (max_iterations - 0) _ 0 rfl (by omega)]
  rw [add_message_observations, init_observations]

/-- The model-side instantiation of the C7 witness: every reply decodes to
an object whose `is_complete` is false and that names no tool. -/
def c7Json : String → JsonOutcome := fun _ =>
  JsonOutcome.object ⟨none, none, none, some false, none⟩

/-- Witness for C7 with budget 2: the run fails after exactly 2
iterations. -/
theorem c7_budget_exhaustion_witness :
    AgentLoop.run (fun _ => "thinking") c7Json simpleResolve [] 2 "task" [] =
      ⟨false, "", [], some ("Max iterations (" ++ toString 2 ++ ") reached"),
        2⟩ :=
  c7_budget_exhaustion (fun _ => "thinking") c7Json simpleResolve [] 2 "task" []
    (fun _ => ⟨⟨"", none, [], false, none, false⟩, rfl, rfl, rfl⟩)

theorem runLoop_never_complete (llm : List (MessageRole × String) → String)
    (jsonParse : String → JsonOutcome) (resolve : String → List String)
    (tools : List (String × Tool)) (max_iterations : Nat)
    (hnc : ∀ msgs d,
      AgentLoop.get_decision jsonParse (llm msgs) = Except.ok d →
        d.is_complete = false) :
    ∀ fuel ctx iterations, max_iterations - iterations = fuel →
      (AgentLoop.runLoop llm jsonParse resolve tools max_iterations ctx
          iterations).success = false := by
  intro fuel
  induction fuel with
  | zero =>
    intro ctx iterations hfuel
    unfold AgentLoop.runLoop
    rw [dif_neg (by omega)]
    rfl
  | succ k ih =>
    intro ctx iterations hfuel
    have hlt : iterations < max_iterations := by omega
    conv_lhs => unfold AgentLoop.runLoop
    rw [dif_pos hlt]
    cases hgd : AgentLoop.get_decision jsonParse (llm ctx.get_messages_for_llm) with
    | error e => rfl
    | ok d =>
      have hcomp := hnc _ _ hgd
      simp only [hcomp, Bool.false_eq_true, if_false]
      cases htool : truthyStr d.tool_name
      · simp only [Bool.false_eq_true, if_false]
        exact ih ctx (iterations + 1) (by omega)
      · simp only [if_true]
        exact ih _ (iterations + 1) (by omega)

/-- C8 amended: (1) whenever the decision of the current iteration has the
completion flag set, the loop returns on that exact iteration a successful
result whose output is the final answer when that is present and nonempty
and the default `"Task completed."` otherwise (the code treats an
empty-string answer like an absent one), carrying the full observation list
and the iteration count, regardless of prior tool failures recorded in
`ctx`; (2) when no decision ever has the completion flag, no run returns
`success = true`. -/
theorem c8_complete_decision_amended :
    (∀ (llm : List (MessageRole × String) → String)
        (jsonParse : String → JsonOutcome) (resolve : String → List String)
        (tools : List (String × Tool)) (max_iterations : Nat)
        (ctx : Context) (iterations : Nat) (d : AgentDecision),
      iterations < max_iterations →
      AgentLoop.get_decision jsonParse (llm ctx.get_messages_for_llm) =
        Except.ok d →
      d.is_complete = true →
      AgentLoop.runLoop llm jsonParse resolve tools max_iterations ctx
          iterations =
        ⟨true, pyOrStr d.final_answer "Task completed.", ctx.observations,
          none, iterations + 1⟩) ∧
    (∀ (llm : List (MessageRole × String) → String)
        (jsonParse : String → JsonOutcome) (resolve : String → List String)
        (tools : List (String × Tool)) (max_iterations : Nat)
        (ctx : Context) (iterations : Nat),
      (∀ msgs d,
        AgentLoop.get_decision jsonParse (llm msgs) = Except.ok d →
          d.is_complete = false) →
      (AgentLoop.runLoop llm jsonParse resolve tools max_iterations ctx
          iterations).success = false) := by
  constructor
  · intro llm jsonParse resolve tools max_iterations ctx iterations d hlt hgd
      hcomp
    conv_lhs => unfold AgentLoop.runLoop
    rw [dif_pos hlt, hgd]
    simp only [hcomp, if_true]
  · intro llm jsonParse resolve tools max_iterations ctx iterations hnc
    exact runLoop_never_complete llm jsonParse resolve tools max_iterations hnc
      (max_iterations - iterations) ctx iterations rfl

/-- The model-side instantiation of the C8 witness: a complete decision
with answer "done". -/
def c8Json : String → JsonOutcome := fun _ =>
  JsonOutcome.object ⟨none, none, none, some true, some "done"⟩

/-- The model-side instantiation of the second C8 witness conjunct: never
complete. -/
def c8StallJson : String → JsonOutcome := fun _ =>
  JsonOutcome.object ⟨none, none, none, some false, none⟩

/-- Witness for the amended C8: a complete decision at iteration 0 of a
budget-3 loop, and a never-complete model that never reaches success. -/
theorem c8_complete_decision_amended_witness :
    AgentLoop.runLoop (fun _ => "r") c8Json simpleResolve [] 3 c2Ctx 0 =
      ⟨true, pyOrStr (some "done") "Task completed.", c2Ctx.observations,
        none, 0 + 1⟩ ∧
    (AgentLoop.runLoop (fun _ => "r") c8StallJson simpleResolve [] 3 c2Ctx
        0).success = false :=
  ⟨c8_complete_decision_amended.1 (fun _ => "r") c8Json simpleResolve [] 3
      c2Ctx 0 ⟨"", none, [], true, some "done", false⟩ (by decide) rfl rfl,
    c8_complete_decision_amended.2 (fun _ => "r") c8StallJson simpleResolve []
      3 c2Ctx 0 (fun msgs d h => by cases h; rfl)⟩

/-- C8 as stated is false on empty final answers: a complete decision whose
final answer is the empty string (present, not absent) yields the default
output `"Task completed."`, not the answer itself. -/
theorem c8_counterexample :
    AgentLoop.get_decision (fun _ => JsonOutcome.object
        ⟨none, none, none, some true, some ""⟩) "r" =
      Except.ok ⟨"", none, [], true, some "", false⟩ ∧
    (AgentLoop.run (fun _ => "r")
        (fun _ => JsonOutcome.object ⟨none, none, none, some true, some ""⟩)
        simpleResolve [] 5 "do" []).output = "Task completed." ∧
    ¬ ((AgentLoop.run (fun _ => "r")
        (fun _ => JsonOutcome.object ⟨none, none, none, some true, some ""⟩)
        simpleResolve [] 5 "do" []).output = "") := by
  have h : AgentLoop.run (fun _ => "r")
      (fun _ => JsonOutcome.object ⟨none, none, none, some true, some ""⟩)
      simpleResolve [] 5 "do" [] =
      ⟨true, "Task completed.", [], none, 1⟩ := by
    unfold AgentLoop.run
    conv_lhs => unfold AgentLoop.runLoop
    rfl
  rw [h]
  exact ⟨rfl, rfl, by decide⟩

/-- The model-side instantiation of the C6 counterexample, modelling
`json.loads` on the concrete reply `"null"`: the decode succeeds and yields
JSON null, which is not an object, so the following `data.get` raises
`AttributeError`. -/
def c6Json : String → JsonOutcome := fun s =>
  if s == "null" then
    JsonOutcome.nonObject "'NoneType' object has no attribute 'get'"
  else JsonOutcome.decodeError

/-- C6 as stated is false: a model reply of `"null"` does not parse as a
structured decision, yet the run aborts with an error-terminal failure
(the `AttributeError` escapes `_get_decision`, whose except clause catches
only `json.JSONDecodeError`, and lands in `run`'s generic handler) instead
of the fallback final answer. -/
theorem c6_counterexample :
    (AgentLoop.run (fun _ => "null") c6Json simpleResolve [] 5 "do" []).success
        = false ∧
    (AgentLoop.run (fun _ => "null") c6Json simpleResolve [] 5 "do" []).error =
      some "'NoneType' object has no attribute 'get'" := by
  have h : AgentLoop.run (fun _ => "null") c6Json simpleResolve [] 5 "do" [] =
      ⟨false, "", [], some "'NoneType' object has no attribute 'get'", 1⟩ := by
    unfold AgentLoop.run
    conv_lhs => unfold AgentLoop.runLoop
    rfl
  rw [h]
  exact ⟨rfl, rfl⟩

/-- C6 amended: for every model reply whose JSON *decode* fails
(`json.JSONDecodeError`), the loop produces the fallback decision — the
whole raw reply as final answer, completion flag set — and the run
terminates successfully on that iteration; but a reply that decodes to a
non-object JSON value aborts the run as an error-terminal failure
(see the counterexample). -/
theorem c6_fallback_amended (jsonParse : String → JsonOutcome)
    (response : String) (llm : List (MessageRole × String) → String)
    (resolve : String → List String) (tools : List (String × Tool))
    (max_iterations : Nat) (task : String) (allowed_paths : List String)
    (hdecode : jsonParse response = JsonOutcome.decodeError)
    (hllm : ∀ msgs, llm msgs = response)
    (hmax : 0 < max_iterations) :
    AgentLoop.get_decision jsonParse response =
      Except.ok ⟨response, none, [], true, some response, false⟩ ∧
    AgentLoop.run llm jsonParse resolve tools max_iterations task
        allowed_paths =
      ⟨true, pyOrStr (some response) "Task completed.", [], none, 1⟩ := by
  have hdec : AgentLoop.get_decision jsonParse response =
      Except.ok ⟨response, none, [], true, some response, false⟩ := by
    unfold AgentLoop.get_decision
    rw [hdecode]
  refine ⟨hdec, ?_⟩
  unfold AgentLoop.run
  conv_lhs => unfold AgentLoop.runLoop
  rw [dif_pos hmax, hllm, hdec]
  simp only [if_true]
  rw [add_message_observations, init_observations]

/-- Witness for the amended C6 at the concrete unparseable reply
"hello world". -/
theorem c6_fallback_amended_witness :
    AgentLoop.get_decision (fun _ => JsonOutcome.decodeError) "hello world" =
      Except.ok ⟨"hello world", none, [], true, some "hello world", false⟩ ∧
    AgentLoop.run (fun _ => "hello world") (fun _ => JsonOutcome.decodeError)
        simpleResolve [] 3 "task" [] =
      ⟨true, pyOrStr (some "hello world") "Task completed.", [], none, 1⟩ :=
  c6_fallback_amended (fun _ => JsonOutcome.decodeError) "hello world"
    (fun _ => "hello world") simpleResolve [] 3 "task" []
    rfl (fun _ => rfl) (by decide)

inductive SubagentStatus
  | pending
  | running
  | completed
  | failed
  | cancelled
deriving DecidableEq, Repr

/-- A subagent task record (agent/subagent.py `SubagentTask`); timestamps
and the `parent_context` dict are omitted. -/
structure SubagentTask where
  id : String
  description : String
  allowed_paths : List String
  status : SubagentStatus := SubagentStatus.pending
  result : Option AgentResult := none
  error : Option String := none
deriving DecidableEq, Repr

/-- A subagent execution result (agent/subagent.py `SubagentResult`). -/
structure SubagentResult where
  task_id : String
  success : Bool
  output : Option String
  summary : String
  error : Option String := none
deriving DecidableEq, Repr

/-- The mutable state of a `SubagentManager`: the id-keyed task dict in
insertion order, plus a counter modelling the fresh `uuid4()` supply. -/
structure ManagerState where
  nextId : Nat
  tasks : List (String × SubagentTask)
deriving DecidableEq, Repr

namespace SubagentManager

/-- Embedding of `SubagentManager.create_task` (subagent.py:77-91): a fresh
id, a pending record, stored in the task dict. -/
def create_task (st : ManagerState) (description : String)
    (allowed_paths : List String) : SubagentTask × ManagerState :=
  let task : SubagentTask :=
    ⟨toString st.nextId, description, allowed_paths, SubagentStatus.pending,
      none, none⟩
  (task, ⟨st.nextId + 1, st.tasks ++ [(task.id, task)]⟩)

/-- The child-summary of `SubagentManager._summarize_result`
(subagent.py:188-196): successes truncated to 500 characters. -/
def summarize_result (result : AgentResult) : String :=
  if result.success then
    "Completed: " ++
      (if result.output.length > 500 then
        (result.output.take 500).push '.' ++ ".."
      else result.output)
  else "Failed: " ++ result.error.getD "None"

/-- Embedding of `SubagentManager.execute_task` (subagent.py:93-137) for one
record.  `runChild` models constructing the child `AgentLoop` and awaiting
its `run`; an `Except.error` is the fault caught by the handler that marks
the record failed.  The semaphore is not modelled: the claims proved here do
not concern concurrency, and `asyncio.gather` returns results in submission
order. -/
def execute_task (runChild : String → List String → Except String AgentResult)
    (task : SubagentTask) : SubagentResult × SubagentTask :=
  match runChild task.description task.allowed_paths with
  | Except.ok result =>
    (⟨task.id, result.success, some result.output, summarize_result result,
        result.error⟩,
      { task with
        status :=
          if result.success then SubagentStatus.completed
          else SubagentStatus.failed
        result := some result
        error := result.error })
  | Except.error e =>
    (⟨task.id, false, none, "Subagent failed: " ++ e, some e⟩,
      { task with status := SubagentStatus.failed, error := some e })

/-- Replace the stored record with the mutated one (Python mutates the
object held in the dict in place). -/
def storeTask (st : ManagerState) (t : SubagentTask) : ManagerState :=
  ⟨st.nextId, st.tasks.map fun p => if p.1 == t.id then (p.1, t) else p⟩

/-- Embedding of `SubagentManager.spawn_and_wait` (subagent.py:162-186)
composed with `execute_parallel`: create a record per description, then run
them, collecting results in submission order. -/
def spawn_and_wait (runChild : String → List String → Except String AgentResult)
    (st : ManagerState) (subtasks : List String)
    (allowed_paths : List String) : List SubagentResult × ManagerState :=
  let created := subtasks.foldl
    (fun acc d =>
      let ts := create_task acc.2 d allowed_paths
      (acc.1 ++ [ts.1], ts.2))
    (([] : List SubagentTask), st)
  created.1.foldl
    (fun acc t =>
      let rt := execute_task runChild t
      (acc.1 ++ [rt.1], storeTask acc.2 rt.2))
    (([] : List SubagentResult), created.2)

end SubagentManager

/-- The structured output dict of a successful `SubagentTool.execute` call:
total/successful/failed counts and per-child (task_id, success, summary)
entries. -/
structure SubagentToolOutput where
  total : Nat
  successful : Nat
  failed : Nat
  results : List (String × Bool × String)
deriving DecidableEq, Repr

/-- The result of `SubagentTool.execute`, whose output is the structured
dict above and whose metadata holds the `subtask_count`. -/
structure SubagentToolResult where
  success : Bool
  output : Option SubagentToolOutput
  error : Option String
  metadata : Option Nat := none
deriving DecidableEq, Repr

namespace SubagentTool

/-- Embedding of `SubagentTool.execute` (agent/subagent.py:250-293) as a
function of the manager state.  `subtasks` is `kwargs.get("subtasks", [])`,
`none` when the key is absent; entries are the `description` strings.
Empty and over-cap batches are rejected before anything is created or
run. -/
def execute (runChild : String → List String → Except String AgentResult)
    (st : ManagerState) (allowed_paths : List String)
    (subtasks : Option (List String)) : SubagentToolResult × ManagerState :=
  let subtasks := subtasks.getD []
  if subtasks.isEmpty then
    (⟨false, none, some "No subtasks provided", none⟩, st)
  else if subtasks.length > 10 then
    (⟨false, none, some "Maximum 10 subtasks allowed", none⟩, st)
  else
    let rs := SubagentManager.spawn_and_wait runChild st subtasks allowed_paths
    let success_count := (rs.1.filter fun r => r.success).length
    (⟨decide (0 < success_count),
        some ⟨rs.1.length, success_count, rs.1.length - success_count,
          rs.1.map fun r => (r.task_id, r.success, r.summary)⟩,
        none, some subtasks.length⟩,
      rs.2)

end SubagentTool

/-- C10: a call to the subagent-spawning tool with an empty subtask list or
with more than 10 subtasks returns a failure result carrying the relevant
descriptive error, leaves the manager's task dict (and id supply) untouched
— zero records created — and never starts a child loop: the outcome does
not depend on `runChild` at all. -/
theorem c10_batch_rejection
    (runChild : String → List String → Except String AgentResult)
    (st : ManagerState) (allowed_paths : List String)
    (subtasks : Option (List String))
    (hbad : (subtasks.getD []).isEmpty = true ∨ (subtasks.getD []).length > 10) :
    SubagentTool.execute runChild st allowed_paths subtasks =
      (⟨false, none,
          some (if (subtasks.getD []).isEmpty then "No subtasks provided"
            else "Maximum 10 subtasks allowed"), none⟩,
        st) := by
  unfold SubagentTool.execute
  rcases hbad with hempty | hlong
  · rw [if_pos hempty, if_pos hempty]
  · cases hempty : (subtasks.getD []).isEmpty
    · rw [if_neg (by simp [hempty]), if_pos hlong, if_neg (by simp [hempty])]
    · have h0 : subtasks.getD [] = [] := by
        simpa using hempty
      simp [h0]

/-- Witness for C10: a batch of 11 subtasks is rejected wholesale from a
fresh manager, whatever the child runner would have done. -/
theorem c10_batch_rejection_witness :
    SubagentTool.execute (fun _ _ => Except.error "never run") ⟨0, []⟩ []
        (some (List.replicate 11 "subtask")) =
      (⟨false, none,
          some (if ((some (List.replicate 11 "subtask")).getD
              ([] : List String)).isEmpty then "No subtasks provided"
            else "Maximum 10 subtasks allowed"), none⟩,
        (⟨0, []⟩ : ManagerState)) :=
  c10_batch_rejection (fun _ _ => Except.error "never run") ⟨0, []⟩ []
    (some (List.replicate 11 "subtask")) (Or.inr (by decide))

/-- C1: the claim says `SandboxManager.is_path_allowed` is true iff the
resolved path equals or descends from a configured root.  The code also
answers `true` when the path is a strict *ancestor* of a root
(`path in allowed.parents`), e.g. allowed roots `[/a/b]` and path `/a`:
the code allows it while the claim (and the function's own docstring,
"within allowed paths") forbids it. -/
theorem c1_ancestor_allowed_code_bug :
    SandboxManager.is_path_allowed [["a", "b"]] ["a"] = true ∧
    SandboxManager.claimPathAllowed [["a", "b"]] ["a"] = false := by
  decide

/-- C9: `is_extension_allowed` returns false when the (lowercased) suffix is
deny-listed — so an extension in both lists is rejected — and otherwise
returns true exactly when the allow-list is empty, the suffix is
allow-listed, or the suffix is empty. -/
theorem c9_extension_allowed_correct
    (allowed_extensions blocked_extensions : List String) (name : String) :
    SandboxManager.is_extension_allowed allowed_extensions blocked_extensions name =
      SandboxManager.claimExtensionAllowed allowed_extensions blocked_extensions name := by
  unfold SandboxManager.is_extension_allowed SandboxManager.claimExtensionAllowed
  cases hb : (blocked_extensions.contains ((SandboxManager.pathSuffix name).toLower)) <;>
    cases ha : allowed_extensions.isEmpty <;>
      simp [hb, ha]

end OpenWork
